import Mathlib

/-!
Shallow embedding of the Xling battery monitor task
(`src/software/src/xling/tasks/battery_monitor_task.c`) and proofs about it.

The C file configures the AVR ADC, samples the battery voltage and the
charge-status pin from the ADC conversion-complete interrupt, and runs a
FreeRTOS task that once per period drains an inbound control queue and
publishes two messages (battery level percentage, battery status pin) to the
display queue.

Machine integers are modelled as `Nat` with explicit `% 2^w` where the C code
performs a narrowing cast; the C `double` arithmetic of `BAT_PERCENT` is
modelled in exact rationals `ℚ` (for the concrete values appearing below the
correctly rounded IEEE double results coincide with the rational ones).
-/

namespace Xling

/-! ## Calibration constants (battery_monitor_task.c lines 51-55) -/

/-- Macro `BAT_MAX` (raw ADC value, measured manually), line 51. -/
def BAT_MAX : ℕ := 700

/-- Macro `BAT_MIN` (raw ADC value, measured manually), line 52. -/
def BAT_MIN : ℕ := 545

/-- Macro `TASK_PERIOD` in milliseconds, line 54. -/
def TASK_PERIOD : ℕ := 100

/-- Macro `BAT_PERCENT(v) = ((v)-BAT_MIN)/((BAT_MAX-BAT_MIN)/100.0)`, line 53.
The argument is the raw ADC reading `_bat_lvl`, a C `uint16_t`.  On the AVR
target `int` is 16 bits wide, so `uint16_t` does not promote to `int`: the
subtraction `(v) - BAT_MIN` is carried out in `unsigned int` and wraps modulo
2^16 when `v < BAT_MIN` (here `a - b` mod 2^16 is written `(a + (2^16 - b)) %
2^16`).  The unsigned 16-bit result converts exactly to `double` and is then
divided by `(BAT_MAX - BAT_MIN) / 100.0 = 1.55`; the `double` division is
modelled in exact rationals. -/
def BAT_PERCENT (v : ℕ) : ℚ :=
  (((v % 65536 + (65536 - BAT_MIN)) % 65536 : ℕ) : ℚ) /
    (((BAT_MAX : ℚ) - (BAT_MIN : ℚ)) / 100)

/-! ## Messages

Modelled from the spec: the message type `xm_msg_t` comes from `xling/msg.h`,
which is part of the repository but not under `src/`.  Per the spec, the
inbound control queue carries a suspend-request variant (`XM_MSG_TASKSUSP_REQ`
in the C code) and other, ignored variants; the outbound display queue carries
a battery-level variant (`XM_MSG_BATLVL`) with a floating-point percentage and
a battery-status-pin variant (`XM_MSG_BATSTATPIN`) with a bit.  The payload
field `value` is modelled as `ℚ`. -/

/-- Message type tags of `xm_msg_t.type`. -/
inductive XmMsgType
  | tasksuspReq
  | batlvl
  | batstatpin
  | otherMsg
  deriving DecidableEq, Repr

/-- A queue message: tag plus payload value. -/
structure XmMsg where
  type : XmMsgType
  value : ℚ
  deriving DecidableEq, Repr

/-! ## Shared sample state (battery_monitor_task.c lines 62-63) -/

/-- The two `volatile` globals written by `ISR(ADC_vect)` and read by
`batmon_task`: `_bat_lvl` (`uint16_t`, raw battery voltage from ADC) and
`_bat_stat` (`uint8_t`, battery status pin value). -/
structure SampleState where
  bat_lvl : ℕ
  bat_stat : ℕ
  deriving DecidableEq, Repr

/-! ## FreeRTOS queue model

A FreeRTOS queue of bounded capacity; `xQueueSendToBack(q, &msg, 0)` is a
non-blocking append that returns `pdPASS` exactly when the queue has room. -/

/-- A bounded FIFO queue: capacity and current items. -/
structure BQueue where
  cap : ℕ
  items : List XmMsg
  deriving DecidableEq, Repr

/-- Non-blocking `xQueueSendToBack` with zero ticks to wait: returns
`(true, queue with msg appended)` when there is room, `(false, unchanged
queue)` when the queue is full. -/
def xQueueSendToBack (q : BQueue) (m : XmMsg) : Bool × BQueue :=
  if q.items.length < q.cap then (true, ⟨q.cap, q.items ++ [m]⟩) else (false, q)

/-! ## The publish step of one task tick (batmon_task, lines 156-182)

After draining the control queue, the task builds the battery-level message
(`msg.type = XM_MSG_BATLVL; msg.value = BAT_PERCENT(_bat_lvl)`) and sends it
without blocking; on failure it `continue`s (nothing else happens this tick).
Otherwise it builds the battery-status-pin message
(`msg.type = XM_MSG_BATSTATPIN; msg.value = _bat_stat`) and sends it, again
`continue`-ing on failure.  The function returns the new display queue and the
ordered list of messages whose send was attempted this tick. -/
def sendPhase (s : SampleState) (dq : BQueue) : BQueue × List XmMsg :=
  let m1 : XmMsg := ⟨XmMsgType.batlvl, BAT_PERCENT s.bat_lvl⟩
  let r1 := xQueueSendToBack dq m1
  if r1.1 then
    let m2 : XmMsg := ⟨XmMsgType.batstatpin, (s.bat_stat : ℚ)⟩
    let r2 := xQueueSendToBack r1.2 m2
    (r2.2, [m1, m2])
  else
    (r1.2, [m1])

/-! ## The drain step of one task tick (batmon_task, lines 122-154)

The inner `while (1)` loop repeatedly calls `xQueueReceive(battery_queue,
&msg, 0)` (non-blocking).  When a message arrives: a `XM_MSG_TASKSUSP_REQ`
makes the task call `xTaskNotifyWait(0, 0, NULL, portMAX_DELAY)` - blocking
indefinitely until a notification - and every other type is ignored silently.
When the queue is empty the loop breaks.

`drain` is the functional rendering: it consumes the queued messages in order
and produces the event trace of the loop.  `arrivals` lists, for each
suspension in turn, the messages enqueued by other tasks while this task was
blocked; they are appended behind the already-queued messages and consumed
only after the resume notification. -/

/-- Observable events of the drain loop: a message received and handled, the
task blocking on `xTaskNotifyWait`, the resume notification arriving, and the
non-blocking receive finding the queue empty (loop exit). -/
inductive DrainEvent
  | consumed (m : XmMsg)
  | blocked
  | resumed
  | sawEmpty
  deriving DecidableEq, Repr

/-- Functional model of the drain loop, lines 122-154. -/
def drain (q : List XmMsg) (arrivals : List (List XmMsg)) : List DrainEvent :=
  match q, arrivals with
  | [], _ => [DrainEvent.sawEmpty]
  | m :: rest, arr =>
    if m.type = XmMsgType.tasksuspReq then
      match arr with
      | [] =>
        DrainEvent.consumed m :: DrainEvent.blocked :: DrainEvent.resumed ::
          drain rest []
      | a :: arr2 =>
        DrainEvent.consumed m :: DrainEvent.blocked :: DrainEvent.resumed ::
          drain (rest ++ a) arr2
    else
      DrainEvent.consumed m :: drain rest arr
termination_by (arrivals.length, q.length)

/-! ## Small-step model of the drain loop, for the suspension claim

The same lines 122-154 rendered as a labelled transition system, making the
blocked period observable: while the task sits inside `xTaskNotifyWait` it
takes no receive step, other tasks may still enqueue, and only the resume
notification returns it to draining. -/

/-- Control mode of the task inside the drain loop: actively draining, or
blocked inside `xTaskNotifyWait`. -/
inductive BatMode
  | draining
  | blockedMode
  deriving DecidableEq, Repr

/-- State of the drain loop: control mode, current contents of the inbound
control queue, and the list of messages consumed so far (in order). -/
structure DrainState where
  mode : BatMode
  queue : List XmMsg
  consumed : List XmMsg
  deriving DecidableEq, Repr

/-- Transition labels: the task receives a message, another task enqueues a
message, another task sends the resume notification. -/
inductive DrainLabel
  | recv (m : XmMsg)
  | enq (m : XmMsg)
  | notifyResume
  deriving DecidableEq, Repr

/-- Labelled transitions of the drain loop (lines 122-154).  Receive steps
exist only in `draining` mode; receiving `XM_MSG_TASKSUSP_REQ` moves to
`blockedMode` (the `xTaskNotifyWait` call); any other received message is
discarded and draining continues; enqueues by other tasks append to the queue
in any mode; the resume notification moves `blockedMode` back to `draining`
without touching the queue. -/
inductive DrainStep : DrainState → DrainLabel → DrainState → Prop
  | recvSuspend (m : XmMsg) (rest c : List XmMsg) :
      m.type = XmMsgType.tasksuspReq →
      DrainStep ⟨BatMode.draining, m :: rest, c⟩ (DrainLabel.recv m)
        ⟨BatMode.blockedMode, rest, c ++ [m]⟩
  | recvIgnored (m : XmMsg) (rest c : List XmMsg) :
      m.type ≠ XmMsgType.tasksuspReq →
      DrainStep ⟨BatMode.draining, m :: rest, c⟩ (DrainLabel.recv m)
        ⟨BatMode.draining, rest, c ++ [m]⟩
  | enqueue (mo : BatMode) (q c : List XmMsg) (m : XmMsg) :
      DrainStep ⟨mo, q, c⟩ (DrainLabel.enq m) ⟨mo, q ++ [m], c⟩
  | notify (q c : List XmMsg) :
      DrainStep ⟨BatMode.blockedMode, q, c⟩ DrainLabel.notifyResume
        ⟨BatMode.draining, q, c⟩

/-! ## One whole tick of the task loop (batmon_task, lines 117-183) -/

/-- Result of one iteration of the outer `while (1)` loop: the drain trace,
the display queue after the publish step, and the ordered list of send
attempts made this tick. -/
structure TickResult where
  drainTrace : List DrainEvent
  display_queue : BQueue
  attempts : List XmMsg
  deriving DecidableEq, Repr

/-- One tick of the task loop after waking: drain the battery (control)
queue, then run the publish step against the display queue. -/
def tick (s : SampleState) (bq : List XmMsg) (arrivals : List (List XmMsg))
    (dq : BQueue) : TickResult :=
  let dtrace := drain bq arrivals
  let r := sendPhase s dq
  ⟨dtrace, r.1, r.2⟩

/-! ## Periodic wake timing (batmon_task, lines 109-119)

`vTaskDelayUntil(&last_wake_time, TASK_DELAY)` blocks until the absolute time
`last_wake_time + TASK_DELAY` and writes that value back into
`last_wake_time`: the new wake time is computed from the previously scheduled
wake time, never from the current tick count, so jitter does not accumulate.
The `now` argument (the tick count at the moment of the call) is exposed here
precisely to show it does not influence the result. -/

/-- FreeRTOS `vTaskDelayUntil`: the updated `last_wake_time`. -/
def vTaskDelayUntil (lastWake delay now : ℕ) : ℕ := lastWake + delay

/-- The wake time of the k-th tick, starting from `xTaskGetTickCount() =
start`, with period `period` and an arbitrary per-tick jitter (the scheduler
delay before `vTaskDelayUntil` is reached again). -/
def wakeTimes (start period : ℕ) (jitter : ℕ → ℕ) : ℕ → ℕ
  | 0 => start
  | k + 1 =>
      vTaskDelayUntil (wakeTimes start period jitter k) period
        (wakeTimes start period jitter k + jitter k)

/-- A fixed jitter schedule used to instantiate the timing theorem. -/
def sampleJitter : ℕ → ℕ := fun k => k % 7

/-! ## ADC configuration (init_adc, lines 194-245)

`SET_BIT` and `CLEAR_BIT` are the macros of lines 47-48 acting on 8-bit
registers; the bit numbers are the ATmega register-bit constants from
`avr/io.h` (an external header): `REFS1 = 7`, `REFS0 = 6`, `MUX4..MUX0 =
4..0` in `ADMUX`; `ADEN = 7`, `ADSC = 6`, `ADATE = 5`, `ADIE = 3`,
`ADPS2..ADPS0 = 2..0` in `ADCSRA`; `ADTS2..ADTS0 = 2..0` in `ADCSRB`. -/

/-- Macro `SET_BIT(byte, bit) = byte |= (1U << bit)`, line 47. -/
def SET_BIT (byte bit : ℕ) : ℕ := byte ||| (1 <<< bit)

/-- Macro `CLEAR_BIT(byte, bit) = byte &= (uint8_t)~(1U << bit)`, line 48,
on an 8-bit register. -/
def CLEAR_BIT (byte bit : ℕ) : ℕ := byte &&& (255 ^^^ ((1 <<< bit) % 256))

/-- The three ADC-related hardware registers touched by `init_adc`. -/
structure AdcRegs where
  admux : ℕ
  adcsra : ℕ
  adcsrb : ℕ
  deriving DecidableEq, Repr

/-- Function `init_adc`, lines 194-245, applied to the register state in
exactly the order of the source: reference voltage, prescaler, channel,
trigger source, enable bits, and the first conversion start. -/
def init_adc (r : AdcRegs) : AdcRegs :=
  let admux := SET_BIT r.admux 7
  let admux := CLEAR_BIT admux 6
  let adcsra := SET_BIT r.adcsra 2
  let adcsra := SET_BIT adcsra 1
  let adcsra := CLEAR_BIT adcsra 0
  let admux := CLEAR_BIT admux 4
  let admux := CLEAR_BIT admux 3
  let admux := CLEAR_BIT admux 2
  let admux := SET_BIT admux 1
  let admux := SET_BIT admux 0
  let adcsrb := CLEAR_BIT r.adcsrb 2
  let adcsrb := CLEAR_BIT adcsrb 1
  let adcsrb := CLEAR_BIT adcsrb 0
  let adcsra := SET_BIT adcsra 7
  let adcsra := SET_BIT adcsra 3
  let adcsra := SET_BIT adcsra 5
  let adcsra := SET_BIT adcsra 6
  ⟨admux, adcsra, adcsrb⟩

/-! ## The ADC interrupt handler (ISR(ADC_vect), lines 247-257) -/

/-- The interrupt handler body: `lvl_low = ADCL`, `lvl_high = (ADCH << 8) &
0x0300`, `_bat_lvl = (uint16_t)(lvl_high | lvl_low)`, `_bat_stat = PINA & 1U`.
`ADCL`, `ADCH` and `PINA` are 8-bit hardware registers, modelled as arbitrary
naturals reduced mod 256; the `uint16_t` cast is the final `% 65536`. -/
def isr_adc_vect (adcl adch pina : ℕ) : SampleState :=
  let lvl_low := adcl % 256
  let lvl_high := (((adch % 256) <<< 8) &&& 0x0300)
  { bat_lvl := (lvl_high ||| lvl_low) % 65536
    bat_stat := (pina % 256) &&& 1 }

/-! ## Process-wide state and the initialization entry point
(xt_init_battery_monitor, lines 74-101) -/

/-- Process-wide state: the ADC registers, the stored task handle
`_task_handle` (line 64, `NULL`/zero at startup, modelled as `none`), the
shared sample state (lines 62-63), and the two queues. -/
structure SysState where
  regs : AdcRegs
  task_handle : Option ℕ
  sample : SampleState
  battery_queue : List XmMsg
  display_queue : BQueue
  deriving DecidableEq, Repr

/-- The zero-initialized startup state (statics are zero at startup), with a
display queue of capacity `cap`. -/
def initialSysState (cap : ℕ) : SysState :=
  ⟨⟨0, 0, 0⟩, none, ⟨0, 0⟩, [], ⟨cap, []⟩⟩

/-- Ordered trace of what `xt_init_battery_monitor` does: first the call to
`init_adc`, then the `xTaskCreate` attempt. -/
inductive InitEvent
  | adcConfigured
  | taskCreateAttempted
  deriving DecidableEq, Repr

/-- Function `xt_init_battery_monitor`, lines 74-101: call `init_adc`, then
`xTaskCreate`.  `createOk` is whether `xTaskCreate` returned `pdPASS` and
`newHandle` the handle it wrote to `*task_handle` on success.  Returns the C
return code `rc` (0 on success, 1 on failure), the new process-wide state
(on success `_task_handle = *task_handle`; on failure `_task_handle` is not
written), and the event trace. -/
def xt_init_battery_monitor (st : SysState) (createOk : Bool) (newHandle : ℕ) :
    ℕ × SysState × List InitEvent :=
  let st1 : SysState := { st with regs := init_adc st.regs }
  if createOk then
    (0, { st1 with task_handle := some newHandle },
      [InitEvent.adcConfigured, InitEvent.taskCreateAttempted])
  else
    (1, st1, [InitEvent.adcConfigured, InitEvent.taskCreateAttempted])

/-! ## Whole-system steps

Every way the process-wide state changes in this translation unit: the ADC
interrupt fires, `xt_init_battery_monitor` is called, the task runs one tick,
or another task enqueues a control message.  Used to state that the interrupt
handler is the only writer of `_bat_lvl` and `_bat_stat`. -/

/-- System-level events. -/
inductive SysEvent
  | isrAdc (adcl adch pina : ℕ)
  | initCall (createOk : Bool) (newHandle : ℕ)
  | taskTick (arrivals : List (List XmMsg))
  | enqBattery (m : XmMsg)

/-- Effect of each system event on the process-wide state. -/
def sysStep (s : SysState) (e : SysEvent) : SysState :=
  match e with
  | SysEvent.isrAdc adcl adch pina => { s with sample := isr_adc_vect adcl adch pina }
  | SysEvent.initCall ok h => (xt_init_battery_monitor s ok h).2.1
  | SysEvent.taskTick arr =>
      let r := tick s.sample s.battery_queue arr s.display_queue
      { s with battery_queue := [], display_queue := r.display_queue }
  | SysEvent.enqBattery m => { s with battery_queue := s.battery_queue ++ [m] }

/-- The invariant of the shared sample state: `_bat_lvl` is in the 10-bit
range `[0, 1023]` and `_bat_stat` is a single bit. -/
def SampleInv (s : SysState) : Prop :=
  s.sample.bat_lvl ≤ 1023 ∧ s.sample.bat_stat ≤ 1

/-! ## Theorems for claims C1-C3 -/

/-- Helper: for readings in `[BAT_MIN, 65535]` the wrapped 16-bit subtraction
agrees with the exact one, so `BAT_PERCENT` is `(r - 545) / 1.55`. -/
theorem batPercent_eq_of_ge (r : ℕ) (h1 : 545 ≤ r) (h2 : r ≤ 65535) :
    BAT_PERCENT r = ((r - 545 : ℕ) : ℚ) / ((155 : ℚ) / 100) := by
  unfold BAT_PERCENT BAT_MAX BAT_MIN
  have hm : (r % 65536 + (65536 - 545)) % 65536 = r - 545 := by omega
  rw [hm]
  norm_num

/-- Helper: for readings below `BAT_MIN` the 16-bit subtraction wraps, so
`BAT_PERCENT` is `(r + 64991) / 1.55`. -/
theorem batPercent_eq_of_lt (r : ℕ) (h : r < 545) :
    BAT_PERCENT r = ((r + 64991 : ℕ) : ℚ) / ((155 : ℚ) / 100) := by
  unfold BAT_PERCENT BAT_MAX BAT_MIN
  have hm : (r % 65536 + (65536 - 545)) % 65536 = r + 64991 := by omega
  rw [hm]
  norm_num

/-- C1: for every raw ADC reading `r` with `BAT_MIN = 545 ≤ r ≤ 700 = BAT_MAX`,
the percentage computed by `BAT_PERCENT` lies in `[0, 100]`; at `r = BAT_MIN`
it is exactly `0` and at `r = BAT_MAX` it is exactly `100`. -/
theorem batPercent_bounds (r : ℕ) (h1 : 545 ≤ r) (h2 : r ≤ 700) :
    0 ≤ BAT_PERCENT r ∧ BAT_PERCENT r ≤ 100 ∧
    BAT_PERCENT 545 = 0 ∧ BAT_PERCENT 700 = 100 := by
  have hkey := batPercent_eq_of_ge r h1 (by omega)
  refine ⟨?_, ?_, ?_, ?_⟩
  · rw [hkey]
    apply div_nonneg
    · exact Nat.cast_nonneg _
    · norm_num
  · rw [hkey, div_le_iff₀ (by norm_num : (0:ℚ) < (155 : ℚ) / 100)]
    have : ((r - 545 : ℕ) : ℚ) ≤ 155 := by exact_mod_cast (by omega : r - 545 ≤ 155)
    linarith
  · rw [batPercent_eq_of_ge 545 (by norm_num) (by norm_num)]
    norm_num
  · rw [batPercent_eq_of_ge 700 (by norm_num) (by norm_num)]
    norm_num

/-- Witness for C1 at the concrete reading `r = 600`. -/
theorem batPercent_bounds_witness :
    0 ≤ BAT_PERCENT 600 ∧ BAT_PERCENT 600 ≤ 100 ∧
    BAT_PERCENT 545 = 0 ∧ BAT_PERCENT 700 = 100 :=
  batPercent_bounds 600 (by norm_num) (by norm_num)

/-- C2 counterexample: at `raw_level = 622` the computed percentage is not
`50`: it equals `(622 - 545) / ((700 - 545) / 100) = 1540 / 31 ≈ 49.677`.
The actual midpoint of `[545, 700]` is the non-integer `622.5`. -/
theorem batPercent_622_ne_50 : BAT_PERCENT 622 ≠ 50 := by
  rw [batPercent_eq_of_ge 622 (by norm_num) (by norm_num)]
  norm_num

/-- C2 amended: at `raw_level = 622` the percentage equals `1540 / 31`
(approximately `49.68`, not exactly `50`); and when `status_bit = 1` and the
display queue has room, the tick attempts the battery-level message first and
then the battery-status-pin message carrying the value `1` (true). -/
theorem batPercent_622_and_statpin (s : SampleState) (dq : BQueue)
    (hstat : s.bat_stat = 1) (hroom : dq.items.length < dq.cap) :
    BAT_PERCENT 622 = 1540 / 31 ∧
    (sendPhase s dq).2 =
      [⟨XmMsgType.batlvl, BAT_PERCENT s.bat_lvl⟩, ⟨XmMsgType.batstatpin, 1⟩] := by
  constructor
  · rw [batPercent_eq_of_ge 622 (by norm_num) (by norm_num)]
    norm_num
  · simp [sendPhase, xQueueSendToBack, hroom, hstat]

/-- Witness for the amended C2 at `_bat_lvl = 622`, `_bat_stat = 1` and an
empty display queue of capacity 2. -/
theorem batPercent_622_and_statpin_witness :
    BAT_PERCENT 622 = 1540 / 31 ∧
    (sendPhase ⟨622, 1⟩ ⟨2, []⟩).2 =
      [⟨XmMsgType.batlvl, BAT_PERCENT 622⟩, ⟨XmMsgType.batstatpin, 1⟩] :=
  batPercent_622_and_statpin ⟨622, 1⟩ ⟨2, []⟩ rfl (by norm_num)

/-- C3 counterexample: at the reading `r = 500 < BAT_MIN` the computed
percentage is not strictly negative.  On the AVR target `int` is 16 bits, so
the `uint16_t` subtraction `500 - 545` wraps to `65491` and the program
computes `65491 / 1.55 = 1309820/31 ≈ 42252`, a large positive value. -/
theorem batPercent_500_wraps :
    BAT_PERCENT 500 = 1309820 / 31 ∧ ¬ BAT_PERCENT 500 < 0 := by
  rw [batPercent_eq_of_lt 500 (by norm_num)]
  norm_num

/-- C3 amended: readings above `BAT_MAX` map to percentages strictly above
100; readings below `BAT_MIN` also map to percentages strictly above 100 (the
16-bit unsigned wrap of `(v) - BAT_MIN` turns them into values of roughly
42000, never negative); and the battery-level message attempted by the
publish step carries exactly `BAT_PERCENT _bat_lvl` - no clamping happens
between the shared sample state and the outbound message. -/
theorem batPercent_no_clamp_amended (r1 r2 : ℕ) (s : SampleState) (dq : BQueue)
    (hhi : 700 < r1) (hr1 : r1 ≤ 65535) (hlo : r2 < 545) :
    100 < BAT_PERCENT r1 ∧ 100 < BAT_PERCENT r2 ∧
    (sendPhase s dq).2.head? =
      some ⟨XmMsgType.batlvl, BAT_PERCENT s.bat_lvl⟩ := by
  refine ⟨?_, ?_, ?_⟩
  · rw [batPercent_eq_of_ge r1 (by omega) hr1,
      lt_div_iff₀ (by norm_num : (0:ℚ) < (155 : ℚ) / 100)]
    have : (155 : ℚ) < ((r1 - 545 : ℕ) : ℚ) := by
      exact_mod_cast (by omega : 155 < r1 - 545)
    linarith
  · rw [batPercent_eq_of_lt r2 hlo,
      lt_div_iff₀ (by norm_num : (0:ℚ) < (155 : ℚ) / 100)]
    have : (64991 : ℚ) ≤ ((r2 + 64991 : ℕ) : ℚ) := by
      exact_mod_cast (by omega : 64991 ≤ r2 + 64991)
    linarith
  · by_cases h : dq.items.length < dq.cap <;>
      simp [sendPhase, xQueueSendToBack, h]

/-- Witness for the amended C3 at `r1 = 800`, `r2 = 500` and a full
(zero-capacity) display queue. -/
theorem batPercent_no_clamp_amended_witness :
    100 < BAT_PERCENT 800 ∧ 100 < BAT_PERCENT 500 ∧
    (sendPhase ⟨800, 0⟩ ⟨0, []⟩).2.head? =
      some ⟨XmMsgType.batlvl, BAT_PERCENT 800⟩ :=
  batPercent_no_clamp_amended 800 500 ⟨800, 0⟩ ⟨0, []⟩ (by norm_num)
    (by norm_num) (by norm_num)

/-! ## Theorems for claims C4-C7 -/

/-- C4: in every tick at most two sends are attempted, in fixed order -
battery-level first, battery-status-pin second; when the display queue is
full the battery-level send fails, the status-pin send is never attempted,
and the queue is left untouched (no retry within the tick). -/
theorem tick_send_order (s : SampleState) (bq : List XmMsg)
    (arr : List (List XmMsg)) (dq : BQueue) :
    (tick s bq arr dq).attempts.map XmMsg.type =
      (if dq.items.length < dq.cap then
        [XmMsgType.batlvl, XmMsgType.batstatpin]
      else [XmMsgType.batlvl]) ∧
    (¬ dq.items.length < dq.cap → (tick s bq arr dq).display_queue = dq) := by
  by_cases h : dq.items.length < dq.cap <;>
    simp [tick, sendPhase, xQueueSendToBack, h]

/-- Witness for C4 with a full (zero-capacity) display queue: only the
battery-level send is attempted and the queue is unchanged. -/
theorem tick_send_order_witness :
    (tick ⟨0, 0⟩ [] [] ⟨0, []⟩).attempts.map XmMsg.type = [XmMsgType.batlvl] ∧
    (tick ⟨0, 0⟩ [] [] ⟨0, []⟩).display_queue = ⟨0, []⟩ :=
  ⟨by simpa using (tick_send_order ⟨0, 0⟩ [] [] ⟨0, []⟩).1,
   (tick_send_order ⟨0, 0⟩ [] [] ⟨0, []⟩).2 (by decide)⟩

/-- Helper for C5: the drain trace over suspend-free queues, by induction. -/
theorem drain_of_no_suspend :
    ∀ (q : List XmMsg) (arr : List (List XmMsg)),
      (∀ m ∈ q, m.type ≠ XmMsgType.tasksuspReq) →
      drain q arr = q.map DrainEvent.consumed ++ [DrainEvent.sawEmpty] := by
  intro q
  induction q with
  | nil => intro arr _; simp [drain]
  | cons m rest ih =>
    intro arr h
    have hm : m.type ≠ XmMsgType.tasksuspReq := h m (List.mem_cons_self m rest)
    rw [drain.eq_def]
    simp [hm, ih arr (fun x hx => h x (List.mem_cons_of_mem m hx))]

/-- C5: when the inbound control queue holds N messages of non-suspend type
followed by empty, the drain step consumes exactly those N messages in order
(each one discarded), never blocks, and stops at the first non-blocking
receive that finds the queue empty. -/
theorem drain_ignored_messages (q : List XmMsg) (arr : List (List XmMsg))
    (h : ∀ m ∈ q, m.type ≠ XmMsgType.tasksuspReq) :
    drain q arr = q.map DrainEvent.consumed ++ [DrainEvent.sawEmpty] :=
  drain_of_no_suspend q arr h

/-- Witness for C5 on a concrete queue of two ignored messages. -/
theorem drain_ignored_messages_witness :
    drain [⟨XmMsgType.otherMsg, 0⟩, ⟨XmMsgType.batlvl, 2⟩] [] =
      [DrainEvent.consumed ⟨XmMsgType.otherMsg, 0⟩,
       DrainEvent.consumed ⟨XmMsgType.batlvl, 2⟩, DrainEvent.sawEmpty] :=
  drain_ignored_messages [⟨XmMsgType.otherMsg, 0⟩, ⟨XmMsgType.batlvl, 2⟩] []
    (by decide)

/-- C6: receiving a suspend-request message moves the task, before it
consumes anything behind the suspend-request, into the blocked mode of
`xTaskNotifyWait`; from the blocked mode every possible step leaves the
consumed list unchanged, and is either an enqueue by another task (growing
the queue behind the pending messages) or the resume notification, which
returns the task to draining with the whole pending queue - including
messages enqueued during the suspension - still to be consumed. -/
theorem drain_suspend_blocks (m : XmMsg) (rest c : List XmMsg)
    (hm : m.type = XmMsgType.tasksuspReq) :
    DrainStep ⟨BatMode.draining, m :: rest, c⟩ (DrainLabel.recv m)
      ⟨BatMode.blockedMode, rest, c ++ [m]⟩ ∧
    (∀ (q cc : List XmMsg) (lab : DrainLabel) (s2 : DrainState),
      DrainStep ⟨BatMode.blockedMode, q, cc⟩ lab s2 →
        s2.consumed = cc ∧
        ((∃ a, lab = DrainLabel.enq a ∧
            s2 = ⟨BatMode.blockedMode, q ++ [a], cc⟩) ∨
         (lab = DrainLabel.notifyResume ∧
            s2 = ⟨BatMode.draining, q, cc⟩))) := by
  constructor
  · exact DrainStep.recvSuspend m rest c hm
  · intro q cc lab s2 hstep
    cases hstep with
    | enqueue mo qq ccc mm => exact ⟨rfl, Or.inl ⟨mm, rfl, rfl⟩⟩
    | notify qq ccc => exact ⟨rfl, Or.inr ⟨rfl, rfl⟩⟩

/-- Witness for C6: the concrete blocking step on a suspend-request queued
ahead of another message. -/
theorem drain_suspend_blocks_witness :
    DrainStep
      ⟨BatMode.draining,
        [⟨XmMsgType.tasksuspReq, 0⟩, ⟨XmMsgType.otherMsg, 3⟩], []⟩
      (DrainLabel.recv ⟨XmMsgType.tasksuspReq, 0⟩)
      ⟨BatMode.blockedMode, [⟨XmMsgType.otherMsg, 3⟩],
        [⟨XmMsgType.tasksuspReq, 0⟩]⟩ :=
  (drain_suspend_blocks ⟨XmMsgType.tasksuspReq, 0⟩
    [⟨XmMsgType.otherMsg, 3⟩] [] rfl).1

/-- Helper for C7: the k-th wake time, for every k and jitter schedule. -/
theorem wakeTimes_closed_form (start period : ℕ) (jitter : ℕ → ℕ) :
    ∀ k, wakeTimes start period jitter k = start + k * period := by
  intro k
  induction k with
  | zero => simp [wakeTimes]
  | succ n ih =>
    simp only [wakeTimes, vTaskDelayUntil, ih]
    ring

/-- C7: for every k ≥ 1 the k-th wake time equals `start + k * PERIOD`,
independently of the scheduler jitter inside each tick - the next wake is
computed from the previously scheduled wake time, so no drift accumulates. -/
theorem wake_no_drift (start period : ℕ) (jitter : ℕ → ℕ) (k : ℕ)
    (hk : 1 ≤ k) :
    wakeTimes start period jitter k = start + k * period :=
  wakeTimes_closed_form start period jitter k

/-- Witness for C7 at the 10th tick with a non-trivial jitter schedule. -/
theorem wake_no_drift_witness :
    wakeTimes 5 100 sampleJitter 10 = 1005 :=
  wake_no_drift 5 100 sampleJitter 10 (by norm_num)

/-! ## Theorems for claims C8-C10 -/

/-- C8: `xt_init_battery_monitor` first configures the ADC and then attempts
to create the task; it returns 0 exactly when `xTaskCreate` succeeds and a
non-zero code exactly when it fails; on success it stores the created handle
in the process-wide `_task_handle`. -/
theorem init_battery_monitor_contract (st : SysState) (ok : Bool) (h : ℕ) :
    (xt_init_battery_monitor st ok h).2.2 =
      [InitEvent.adcConfigured, InitEvent.taskCreateAttempted] ∧
    ((xt_init_battery_monitor st ok h).1 = 0 ↔ ok = true) ∧
    ((xt_init_battery_monitor st ok h).1 ≠ 0 ↔ ok = false) ∧
    (ok = true →
      (xt_init_battery_monitor st ok h).2.1.task_handle = some h) ∧
    (xt_init_battery_monitor st ok h).2.1.regs = init_adc st.regs := by
  cases ok <;> simp [xt_init_battery_monitor]

/-- Witness for C8 on a successful creation from the startup state. -/
theorem init_battery_monitor_contract_witness :
    (xt_init_battery_monitor (initialSysState 4) true 42).1 = 0 ∧
    (xt_init_battery_monitor (initialSysState 4) true 42).2.1.task_handle =
      some 42 :=
  ⟨(init_battery_monitor_contract (initialSysState 4) true 42).2.1.mpr rfl,
   (init_battery_monitor_contract (initialSysState 4) true 42).2.2.2.1 rfl⟩

/-- Helper for C9: the interrupt handler always writes a 10-bit level and a
single status bit. -/
theorem isr_adc_vect_bounds (adcl adch pina : ℕ) :
    (isr_adc_vect adcl adch pina).bat_lvl ≤ 1023 ∧
    (isr_adc_vect adcl adch pina).bat_stat ≤ 1 := by
  constructor
  · have hhigh : (((adch % 256) <<< 8) &&& 0x0300) < 1024 :=
      lt_of_le_of_lt (Nat.and_le_right) (by norm_num)
    have hlow : adcl % 256 < 1024 :=
      lt_of_lt_of_le (Nat.mod_lt adcl (by norm_num)) (by norm_num)
    have hor : ((((adch % 256) <<< 8) &&& 0x0300) ||| (adcl % 256)) < 1024 := by
      have := Nat.or_lt_two_pow (n := 10) hhigh hlow
      simpa using this
    have : (isr_adc_vect adcl adch pina).bat_lvl ≤
        ((((adch % 256) <<< 8) &&& 0x0300) ||| (adcl % 256)) :=
      Nat.mod_le _ _
    omega
  · exact Nat.and_le_right

/-- C9: the shared-sample-state invariant - `_bat_lvl` in the 10-bit range
`[0, 1023]` and `_bat_stat` a single bit - holds of the zero startup state
and after every system step (in particular after every run of the ADC
interrupt handler); and the interrupt handler is the only writer of the two
fields: the init call, a task tick and an external enqueue all leave the
sample state unchanged. -/
theorem sample_state_invariant (cap : ℕ) (s : SysState) (e : SysEvent)
    (hinv : SampleInv s) :
    SampleInv (initialSysState cap) ∧
    SampleInv (sysStep s e) ∧
    (∀ arr, (sysStep s (SysEvent.taskTick arr)).sample = s.sample) ∧
    (∀ ok h, (sysStep s (SysEvent.initCall ok h)).sample = s.sample) ∧
    (∀ m, (sysStep s (SysEvent.enqBattery m)).sample = s.sample) := by
  refine ⟨⟨by norm_num [initialSysState], by norm_num [initialSysState]⟩,
    ?_, ?_, ?_, ?_⟩
  · cases e with
    | isrAdc a b p => exact isr_adc_vect_bounds a b p
    | initCall ok h =>
      have : (sysStep s (SysEvent.initCall ok h)).sample = s.sample := by
        cases ok <;> simp [sysStep, xt_init_battery_monitor]
      rw [SampleInv, this]
      exact hinv
    | taskTick arr => exact hinv
    | enqBattery m => exact hinv
  · intro arr; rfl
  · intro ok h; cases ok <;> simp [sysStep, xt_init_battery_monitor]
  · intro m; rfl

/-- Witness for C9: the invariant holds after the interrupt fires on the
startup state with concrete register contents. -/
theorem sample_state_invariant_witness :
    SampleInv (sysStep (initialSysState 4) (SysEvent.isrAdc 200 3 1)) :=
  (sample_state_invariant 4 (initialSysState 4) (SysEvent.isrAdc 200 3 1)
    ⟨by norm_num [initialSysState], by norm_num [initialSysState]⟩).2.1

/-- C10: when task creation fails, `xt_init_battery_monitor` performs no
write to `_task_handle` - the stored handle is exactly what it was before
the call. -/
theorem init_failure_preserves_handle (st : SysState) (h : ℕ) :
    (xt_init_battery_monitor st false h).2.1.task_handle = st.task_handle := by
  simp [xt_init_battery_monitor]

end Xling
